import Mathlib

/-!
# Verification of the `lora_gateway` packet logger (receive program)

Shallow embedding of `util_pkt_logger_t/src/util_pkt_logger.c`:
the configuration mapper (`parse_SX1301_configuration`,
`parse_gateway_configuration`, `setupconf`), the signal handler
(`sig_handler`) and the acquisition loop (`execute`).

Machine integers are modelled as `Nat` / `Int`; the JSON reader
(parson) is modelled by its contract as an abstract hierarchical
document whose leaves are typed values; the Hardware Boundary
(loragw HAL, not part of this repository) is modelled as an
environment script of poll results and an event trace of the calls
the program makes to it.

Note on the source text of `execute` (lines 371-477): the file as
shipped is a fragment with one unbalanced brace — the `}` closing the
`while` loop is missing.  The indentation of the `if (exit_sig == 1)`
block (one tab, the same level as the `while` itself, lines 463-473)
and of the final `MSG`/`return` lines places the restored `}` directly
before line 463, so the shutdown check runs once, after the loop
exits.  The embedding below follows that reading.
-/

/- ---------------------------------------------------------------- -/
/- Bandwidth and datarate codes of the HAL configuration record     -/
/- (`ifconf.bandwidth`, `ifconf.datarate`).                         -/
/- ---------------------------------------------------------------- -/

/-- The bandwidth codes assigned by `parse_SX1301_configuration`
(`BW_500KHZ` … `BW_7K8HZ`, `BW_UNDEFINED`). -/
inductive Bandwidth where
  | bw500k | bw250k | bw125k | bw62k5 | bw31k2 | bw15k6 | bw7k8
  | undefinedBW
  deriving DecidableEq, Repr

/-- The datarate codes assigned by `parse_SX1301_configuration` for the
LoRa standard channel (`DR_LORA_SF7` … `DR_LORA_SF12`, `DR_UNDEFINED`)
together with the raw FSK bit rate. -/
inductive Datarate where
  | sf7 | sf8 | sf9 | sf10 | sf11 | sf12
  | undefinedDR
  | fskRate (bps : Nat)
  deriving DecidableEq, Repr

/-- Lines 206-211: bandwidth switch for the LoRa standard channel
(`chan_Lora_std.bandwidth`), exact match on 500000 / 250000 / 125000,
everything else `BW_UNDEFINED`. -/
def chan_Lora_std_bandwidth (bw : Nat) : Bandwidth :=
  match bw with
  | 500000 => .bw500k
  | 250000 => .bw250k
  | 125000 => .bw125k
  | _ => .undefinedBW

/-- Lines 213-221: spreading-factor switch for the LoRa standard channel
(`chan_Lora_std.spread_factor`), exact match on 7..12, everything else
`DR_UNDEFINED`. -/
def chan_Lora_std_spread_factor (sf : Nat) : Datarate :=
  match sf with
  | 7 => .sf7
  | 8 => .sf8
  | 9 => .sf9
  | 10 => .sf10
  | 11 => .sf11
  | 12 => .sf12
  | _ => .undefinedDR

/-- Lines 247-254: ascending-threshold bucket classifier for the FSK
channel bandwidth (`chan_FSK.bandwidth`). -/
def chan_FSK_bandwidth (bw : Nat) : Bandwidth :=
  if bw ≤ 7800 then .bw7k8
  else if bw ≤ 15600 then .bw15k6
  else if bw ≤ 31200 then .bw31k2
  else if bw ≤ 62500 then .bw62k5
  else if bw ≤ 125000 then .bw125k
  else if bw ≤ 250000 then .bw250k
  else if bw ≤ 500000 then .bw500k
  else .undefinedBW

/-- The FSK bucket table in ascending order of upper bounds, as the
spec describes it (7.8 kHz up to 500 kHz). -/
def fskBuckets : List (Nat × Bandwidth) :=
  [(7800, .bw7k8), (15600, .bw15k6), (31200, .bw31k2), (62500, .bw62k5),
   (125000, .bw125k), (250000, .bw250k), (500000, .bw500k)]

/-- Modelled from the spec: "first bucket whose upper bound is ≥ the
requested value, from 7800 Hz up to 500000 Hz; values above 500000 Hz →
undefined".  Used only to compare against `chan_FSK_bandwidth`. -/
def firstBucketGE (bw : Nat) : Bandwidth :=
  match fskBuckets.find? (fun p => bw ≤ p.1) with
  | some p => p.2
  | none => .undefinedBW

/- ---------------------------------------------------------------- -/
/- Abstract JSON document model (the parson reader's contract).     -/
/- ---------------------------------------------------------------- -/

/-- A leaf value as seen through the parson accessors used by the
program: `json_value_get_type`, `json_value_get_boolean`,
`json_object_dotget_number`, `json_object_dotget_string`.  A missing
key is modelled as `Option.none` at the use site. -/
inductive JVal where
  | jbool (b : Bool)
  | jnumber (x : Int)
  | jstring (s : String)
  | jobjectV
  | jarrayV
  | jnullV
  deriving DecidableEq, Repr

/-- `json_value_get_type val == JSONBoolean` for a fetched value
(`none` models a NULL `JSON_Value*`, whose type is `JSONError`). -/
def isJsonBoolean : Option JVal → Bool
  | some (.jbool _) => true
  | _ => false

/-- `json_value_get_boolean` on a value known to be a boolean. -/
def jsonBooleanValue : Option JVal → Bool
  | some (.jbool b) => b
  | _ => false

/-- `json_object_dotget_number`: parson returns 0 when the key is
absent or not a number. -/
def dotgetNumber : Option JVal → Int
  | some (.jnumber x) => x
  | _ => 0

/-- `json_object_dotget_string`: parson returns the string when the key
holds one and NULL otherwise; `none` models NULL. -/
def dotgetString : Option JVal → Option String
  | some (.jstring s) => some s
  | _ => none

/- ---------------------------------------------------------------- -/
/- Configuration mapper: per-slot parsing                           -/
/- (`parse_SX1301_configuration`, lines 126-261).                   -/
/- ---------------------------------------------------------------- -/

/-- The HAL RF-chain configuration record `struct lgw_conf_rxrf_s`,
with the fields the program touches.  `memset(&rfconf, 0, …)` is the
`zeroRxrf` record below. -/
structure LgwConfRxrf where
  enable : Bool
  freq_hz : Nat
  deriving DecidableEq, Repr

def zeroRxrf : LgwConfRxrf := { enable := false, freq_hz := 0 }

/-- The HAL IF-chain configuration record `struct lgw_conf_rxif_s`,
with the fields the program touches.  `memset(&ifconf, 0, …)` zeroes
every field; `BW_UNDEFINED` and `DR_UNDEFINED` are the HAL's zero
codes, so the zero record carries the undefined sentinels. -/
structure LgwConfRxif where
  enable : Bool
  rf_chain : Nat
  freq_hz : Int
  bandwidth : Bandwidth
  datarate : Datarate
  deriving DecidableEq, Repr

def zeroRxif : LgwConfRxif :=
  { enable := false, rf_chain := 0, freq_hz := 0,
    bandwidth := .undefinedBW, datarate := .undefinedDR }

/-- One slot object of the `SX1301_conf` section, as the program reads
it: each field is the (possibly absent) value at the corresponding
dotted key.  `radio_i` slots use `enable`/`freq`; channel slots use
`enable`/`radio`/`if_hz` (source key `"if"`)/`bandwidth`/
`spread_factor`/`datarate` as applicable. -/
structure SlotDoc where
  enable : Option JVal
  freq : Option JVal
  radio : Option JVal
  if_hz : Option JVal
  bandwidth : Option JVal
  spread_factor : Option JVal
  datarate : Option JVal
  deriving DecidableEq, Repr

/-- Lines 135-148: parse one present `radio_i` slot object into an RF
configuration record, also returning the list of slot keys the code
reads after `enable` (empty when the slot ends up disabled). -/
def parse_radio_slot (slot : SlotDoc) : LgwConfRxrf × List String :=
  let rfconf := zeroRxrf
  let rfconf :=
    if isJsonBoolean slot.enable then
      { rfconf with enable := jsonBooleanValue slot.enable }
    else
      { rfconf with enable := false }
  if rfconf.enable = false then
    (rfconf, [])
  else
    ({ rfconf with freq_hz := (dotgetNumber slot.freq).toNat % 2 ^ 32 },
     ["freq"])

/-- Lines 165-181: parse one present `chan_multiSF_i` slot object into
an IF configuration record, also returning the slot keys read after
`enable`. -/
def parse_multiSF_slot (slot : SlotDoc) : LgwConfRxif × List String :=
  let ifconf := zeroRxif
  let ifconf :=
    if isJsonBoolean slot.enable then
      { ifconf with enable := jsonBooleanValue slot.enable }
    else
      { ifconf with enable := false }
  if ifconf.enable = false then
    (ifconf, [])
  else
    ({ ifconf with
        rf_chain := (dotgetNumber slot.radio).toNat % 2 ^ 32,
        freq_hz := dotgetNumber slot.if_hz },
     ["radio", "if"])

/-- Lines 194-223: parse the present `chan_Lora_std` slot object,
also returning the slot keys read after `enable`. -/
def parse_Lora_std_slot (slot : SlotDoc) : LgwConfRxif × List String :=
  let ifconf := zeroRxif
  let ifconf :=
    if isJsonBoolean slot.enable then
      { ifconf with enable := jsonBooleanValue slot.enable }
    else
      { ifconf with enable := false }
  if ifconf.enable = false then
    (ifconf, [])
  else
    ({ ifconf with
        rf_chain := (dotgetNumber slot.radio).toNat % 2 ^ 32,
        freq_hz := dotgetNumber slot.if_hz,
        bandwidth :=
          chan_Lora_std_bandwidth ((dotgetNumber slot.bandwidth).toNat % 2 ^ 32),
        datarate :=
          chan_Lora_std_spread_factor
            ((dotgetNumber slot.spread_factor).toNat % 2 ^ 32) },
     ["radio", "if", "bandwidth", "spread_factor"])

/-- Lines 235-256: parse the present `chan_FSK` slot object, also
returning the slot keys read after `enable`. -/
def parse_FSK_slot (slot : SlotDoc) : LgwConfRxif × List String :=
  let ifconf := zeroRxif
  let ifconf :=
    if isJsonBoolean slot.enable then
      { ifconf with enable := jsonBooleanValue slot.enable }
    else
      { ifconf with enable := false }
  if ifconf.enable = false then
    (ifconf, [])
  else
    ({ ifconf with
        rf_chain := (dotgetNumber slot.radio).toNat % 2 ^ 32,
        freq_hz := dotgetNumber slot.if_hz,
        bandwidth :=
          chan_FSK_bandwidth ((dotgetNumber slot.bandwidth).toNat % 2 ^ 32),
        datarate := .fskRate ((dotgetNumber slot.datarate).toNat % 2 ^ 32) },
     ["radio", "if", "bandwidth", "datarate"])

/- ---------------------------------------------------------------- -/
/- Gateway identity (`parse_gateway_configuration`, lines 266-295). -/
/- ---------------------------------------------------------------- -/

/-- Value of a hexadecimal digit character. -/
def hexDigitVal (c : Char) : Nat :=
  if '0' ≤ c ∧ c ≤ '9' then c.toNat - '0'.toNat
  else if 'a' ≤ c ∧ c ≤ 'f' then c.toNat - 'a'.toNat + 10
  else if 'A' ≤ c ∧ c ≤ 'F' then c.toNat - 'A'.toNat + 10
  else 0

def isHexDigitChar (c : Char) : Bool :=
  ('0' ≤ c ∧ c ≤ '9') ∨ ('a' ≤ c ∧ c ≤ 'f') ∨ ('A' ≤ c ∧ c ≤ 'F')

/-- C's `isspace`: the six whitespace characters scanf skips —
space, `\t`, `\n`, `\v` (11), `\f` (12), `\r`. -/
def isSpaceC (c : Char) : Bool :=
  c == ' ' || c == '\t' || c == '\n' || c == Char.ofNat 11 ||
    c == Char.ofNat 12 || c == '\r'

/-- `sscanf(s, "%llx", &ull)` on a non-NULL string, with the C11
`%x` / `strtoul` base-16 item semantics: skip leading `isspace`
whitespace, accept an optional `+` or `-` sign, accept an optional
`0x`/`0X` prefix when a hex digit follows, then convert the maximal
run of hex digits, reduced modulo 2^64 (`unsigned long long`); a `-`
sign negates the value in the unsigned type (modulo 2^64).  A matching
failure (no digits) assigns nothing and is `none`. -/
def scanHexU64 (s : String) : Option Nat :=
  let cs := s.data.dropWhile isSpaceC
  let signed :=
    match cs with
    | '+' :: rest => (false, rest)
    | '-' :: rest => (true, rest)
    | l => (false, l)
  let neg := signed.1
  let cs :=
    match signed.2 with
    | '0' :: x :: rest =>
      if (x == 'x' || x == 'X') && (match rest with
                                    | d :: _ => isHexDigitChar d
                                    | [] => false) then rest
      else '0' :: x :: rest
    | l => l
  let digits := cs.takeWhile isHexDigitChar
  if digits.isEmpty then none
  else
    let m := digits.foldl (fun acc c => (acc * 16 + hexDigitVal c) % 2 ^ 64) 0
    some (if neg then (2 ^ 64 - m) % 2 ^ 64 else m)

/-- The `gateway_conf` section of one configuration document, as the
program reads it. -/
structure GwDoc where
  /-- `json_parse_file_with_comments` succeeded and the root is an
  object (lines 274-279; failure calls `exit(EXIT_FAILURE)`). -/
  rootValid : Bool
  /-- the root contains an object named `gateway_conf` (lines 280-283;
  absence returns -1 without touching `lgwm`). -/
  confPresent : Bool
  /-- the value at dotted key `gateway_ID`, `none` when absent. -/
  gateway_ID : Option JVal
  deriving DecidableEq, Repr

/-- Outcome of `parse_gateway_configuration`, threading the global
`lgwm`. -/
inductive GwParse where
  /-- invalid JSON: `exit(EXIT_FAILURE)` (line 278). -/
  | exitFailure
  /-- no `gateway_conf` object: `return -1`, `lgwm` unchanged. -/
  | noConfObj (lgwm : Nat)
  /-- `return 0` with the new `lgwm` value. -/
  | ok (lgwm : Nat)
  /-- line 289 passes the NULL result of `json_object_dotget_string`
  to `sscanf`: undefined behavior (a crash on common libc). -/
  | nullStringUB
  deriving DecidableEq, Repr

/-- Lines 266-295: `parse_gateway_configuration`, acting on the global
`lgwm` (initial value `lgwm0`).  `ull` is initialized to 0, so a
present string whose scan fails leaves `ull = 0` and sets `lgwm = 0`. -/
def parse_gateway_configuration (lgwm0 : Nat) (doc : GwDoc) : GwParse :=
  if doc.rootValid = false then .exitFailure
  else if doc.confPresent = false then .noConfObj lgwm0
  else
    match dotgetString doc.gateway_ID with
    | none => .nullStringUB
    | some s => .ok ((scanHexU64 s).getD 0)

/- ---------------------------------------------------------------- -/
/- Configuration file cascade (`setupconf`, lines 331-366).         -/
/- ---------------------------------------------------------------- -/

/-- Which of the three configuration files `access(…, R_OK)` finds. -/
structure ConfFiles where
  debugPresent : Bool
  globalPresent : Bool
  localPresent : Bool
  deriving DecidableEq, Repr

/-- One parse call made by `setupconf`, with the file it is given. -/
inductive ParseCall where
  | sx1301 (file : String)
  | gateway (file : String)
  deriving DecidableEq, Repr

def ParseCall.file : ParseCall → String
  | .sx1301 f => f
  | .gateway f => f

def global_conf_fname : String := "global_conf.json"
def local_conf_fname : String := "local_conf.json"
def debug_conf_fname : String := "debug_conf.json"

/-- Lines 331-366: `setupconf` — the ordered list of parse calls it
issues and its return value (0 or `EXIT_FAILURE` = 1). -/
def setupconf (files : ConfFiles) : List ParseCall × Nat :=
  if files.debugPresent then
    ([.sx1301 debug_conf_fname, .gateway debug_conf_fname], 0)
  else if files.globalPresent then
    (([.sx1301 global_conf_fname, .gateway global_conf_fname] ++
      (if files.localPresent then
        [ParseCall.sx1301 local_conf_fname, ParseCall.gateway local_conf_fname]
       else [])), 0)
  else if files.localPresent then
    ([.sx1301 local_conf_fname, .gateway local_conf_fname], 0)
  else
    ([], 1)

/- ---------------------------------------------------------------- -/
/- Signal handler (`sig_handler`, lines 90-96).                     -/
/- ---------------------------------------------------------------- -/

/-- The three signals the program installs a handler for
(lines 404-406). -/
inductive Signal where
  | sigquit | sigint | sigterm
  deriving DecidableEq, Repr

/-- The two process-wide shutdown flags (lines 61-62), both 0
initially. -/
structure Flags where
  exit_sig : Bool
  quit_sig : Bool
  deriving DecidableEq, Repr

def flags0 : Flags := { exit_sig := false, quit_sig := false }

/-- Lines 90-96: `sig_handler`. -/
def sig_handler (f : Flags) (s : Signal) : Flags :=
  if s = .sigquit then { f with quit_sig := true }
  else if s = .sigint ∨ s = .sigterm then { f with exit_sig := true }
  else f

/- ---------------------------------------------------------------- -/
/- Acquisition loop (`execute`, lines 371-477).                     -/
/- ---------------------------------------------------------------- -/

/-- Packet status as tested at line 431: `STAT_CRC_OK` against the
rest (`STAT_CRC_BAD`, `STAT_NO_CRC`). -/
inductive PktStatus where
  | crcOk | crcBad | noCrc
  deriving DecidableEq, Repr

/-- One received packet `struct lgw_pkt_rx_s`, with the fields the
loop reads: `status`, `size` (uint16) and the first `size` bytes of
`payload`. -/
structure RxPkt where
  status : PktStatus
  size : Nat
  payload : List Nat
  deriving DecidableEq, Repr

/-- Per-packet external environment: the packet plus the success of
the `socket` and `connect` calls the loop makes for it. -/
structure FrameEnv where
  pkt : RxPkt
  sockOk : Bool
  connOk : Bool
  deriving DecidableEq, Repr

/-- Result of one `lgw_receive` call: `LGW_HAL_ERROR` or a batch of at
most 16 packets. -/
inductive PollResult where
  | halError
  | pkts (frames : List FrameEnv)
  deriving DecidableEq, Repr

/-- Environment of one loop cycle: the flag values observed at the
`while` condition (line 419) and the poll outcome. -/
structure CycleEnv where
  flags : Flags
  poll : PollResult
  deriving DecidableEq, Repr

/-- Externally observable actions of `execute`, in program order:
calls into the Hardware Boundary, the idle sleep, the socket calls of
the forwarder (with the fixed endpoint of lines 396-398), and the
watchdog diagnostic of line 459. -/
inductive Event where
  | lgwStart
  | lgwReceive
  | sleep3ms
  | socketOpen
  | connectTo (addr : String) (port : Nat)
  | writeBytes (count : Nat) (bytes : List Nat)
  | closeSock
  | watchdogDiag
  | lgwStop
  | closeLogFile
  deriving DecidableEq, Repr

/-- Outcome of `execute`. -/
inductive ExecResult where
  /-- `return EXIT_FAILURE` / `return 1`. -/
  | failure
  /-- `return EXIT_SUCCESS` after the loop; `graceful` is the
  `exit_sig` value read at the post-loop check (line 463). -/
  | success (graceful : Bool)
  /-- the environment script ran out while the loop would continue
  (the model's fuel; never reached by the theorems below). -/
  | outOfScript
  deriving DecidableEq, Repr

/-- Lines 434-438: the payload copy loop
`for (j = 0; j < p->size; ++j) recvBuff[j] = p->payload[j];`
as the sequence of buffer indices it writes. -/
def copyWriteIndices (size : Nat) : List Nat := List.range size

/-- Lines 434-438: net effect of the payload copy loop on the staging
buffer, modelled as a total function on indices (the C buffer has
capacity 256; writes past it are out of bounds, see the safety claim). -/
def copyPayload (buf : Nat → Nat) (payload : List Nat) (size : Nat) :
    Nat → Nat :=
  (copyWriteIndices size).foldl
    (fun b j => fun k => if k = j then payload.getD j 0 else b k) buf

/-- State threaded through the packet loop: the consecutive-corruption
counter `corrupt_pkt_count` and the staging buffer `recvBuff`. -/
structure LoopState where
  corrupt_pkt_count : Nat
  recvBuff : Nat → Nat

/-- Initial state: `corrupt_pkt_count = 0` (line 380) and
`memset(recvBuff, '0', 256)` (line 391), i.e. every byte 48. -/
def initLoopState : LoopState :=
  { corrupt_pkt_count := 0, recvBuff := fun _ => 48 }

/-- Lines 429-461, body of `for (i=0; i < nb_pkt; ++i)` for one
packet: events emitted, new state, and whether the body executed a
`return 1` (socket creation or connect failure). -/
def logPacket (st : LoopState) (fe : FrameEnv) :
    List Event × LoopState × Bool :=
  if fe.pkt.status = .crcOk then
    let st := { st with corrupt_pkt_count := 0 }
    let st := { st with
      recvBuff := copyPayload st.recvBuff fe.pkt.payload fe.pkt.size }
    if fe.sockOk = false then
      ([.socketOpen], st, true)
    else if fe.connOk = false then
      ([.socketOpen, .connectTo "127.0.0.1" 1680], st, true)
    else
      ([Event.socketOpen, Event.connectTo "127.0.0.1" 1680] ++
        (if 0 < fe.pkt.size then
          [Event.writeBytes fe.pkt.size
            ((copyWriteIndices fe.pkt.size).map st.recvBuff)]
         else []) ++ [Event.closeSock],
       st, false)
  else
    let st := { st with corrupt_pkt_count := st.corrupt_pkt_count + 1 }
    ((if st.corrupt_pkt_count = 10 then [Event.watchdogDiag] else []),
     st, false)

/-- Lines 429-462: the packet loop over one fetched batch, stopping
early when a body iteration returns. -/
def processPackets (st : LoopState) :
    List FrameEnv → List Event × LoopState × Bool
  | [] => ([], st, false)
  | fe :: rest =>
    let r := logPacket st fe
    if r.2.2 then (r.1, r.2.1, true)
    else
      let r2 := processPackets r.2.1 rest
      (r.1 ++ r2.1, r2.2.1, r2.2.2)

/-- Lines 419-476 (with the restored `while` closing brace before line
463): the main loop, driven by the environment script, followed by the
post-loop shutdown check.  The flag values of the cycle on which the
`while` condition fails are also the values the post-loop
`if (exit_sig == 1)` reads. -/
def executeLoop (st : LoopState) :
    List CycleEnv → List Event × ExecResult
  | [] => ([], .outOfScript)
  | env :: rest =>
    if env.flags.quit_sig = true ∨ env.flags.exit_sig = true then
      (if env.flags.exit_sig then [Event.lgwStop, Event.closeLogFile]
       else [],
       .success env.flags.exit_sig)
    else
      match env.poll with
      | .halError => ([.lgwReceive], .failure)
      | .pkts frames =>
        let sleepEvs :=
          if frames.length = 0 then [Event.sleep3ms] else []
        let r := processPackets st frames
        if r.2.2 then
          (Event.lgwReceive :: sleepEvs ++ r.1, .failure)
        else
          let r2 := executeLoop r.2.1 rest
          (Event.lgwReceive :: sleepEvs ++ r.1 ++ r2.1, r2.2)

/-- Lines 371-477: `execute`.  `startOk` is the result of
`lgw_start()`; on failure the function returns `EXIT_FAILURE` before
the loop. -/
def execute (startOk : Bool) (script : List CycleEnv) :
    List Event × ExecResult :=
  if startOk then
    let r := executeLoop initLoopState script
    (Event.lgwStart :: r.1, r.2)
  else
    ([Event.lgwStart], .failure)

/- ---------------------------------------------------------------- -/
/- Theorems                                                         -/
/- ---------------------------------------------------------------- -/

/-- C5: the FSK bandwidth bucket classifier maps each requested
bandwidth to the first bucket whose upper bound is ≥ it; the seven
bucket bounds return exactly the matching bucket, input 1 returns the
7.8 kHz bucket, and every input above 500000 returns the undefined
sentinel. -/
theorem chan_FSK_bandwidth_buckets :
    (∀ bw : Nat, chan_FSK_bandwidth bw = firstBucketGE bw) ∧
    chan_FSK_bandwidth 7800 = .bw7k8 ∧
    chan_FSK_bandwidth 15600 = .bw15k6 ∧
    chan_FSK_bandwidth 31200 = .bw31k2 ∧
    chan_FSK_bandwidth 62500 = .bw62k5 ∧
    chan_FSK_bandwidth 125000 = .bw125k ∧
    chan_FSK_bandwidth 250000 = .bw250k ∧
    chan_FSK_bandwidth 500000 = .bw500k ∧
    chan_FSK_bandwidth 1 = .bw7k8 ∧
    (∀ bw : Nat, 500000 < bw → chan_FSK_bandwidth bw = .undefinedBW) := by
  refine ⟨?_, by decide, by decide, by decide, by decide, by decide,
          by decide, by decide, by decide, ?_⟩
  · intro bw
    unfold chan_FSK_bandwidth firstBucketGE fskBuckets
    split_ifs with h1 h2 h3 h4 h5 h6 h7 <;>
      simp [List.find?_cons_of_pos, List.find?_cons_of_neg,
            decide_eq_true, decide_eq_false, *]
  · intro bw h
    unfold chan_FSK_bandwidth
    split_ifs <;> first | rfl | omega

/-- C5 witness: the classifier agrees with the spec's first-bucket
rule at 1 and sends 500001 to the undefined sentinel. -/
theorem chan_FSK_bandwidth_buckets_witness :
    chan_FSK_bandwidth 1 = firstBucketGE 1 ∧
    chan_FSK_bandwidth 500001 = .undefinedBW :=
  ⟨chan_FSK_bandwidth_buckets.1 1,
   chan_FSK_bandwidth_buckets.2.2.2.2.2.2.2.2.2 500001 (by decide)⟩

/-- C6: LoRa standard-channel bandwidth mapping matches exactly
500000 / 250000 / 125000 Hz and maps every other value to the
undefined sentinel; spreading-factor mapping matches exactly 7..12 and
maps every other value to the undefined sentinel. -/
theorem chan_Lora_std_exact_match :
    chan_Lora_std_bandwidth 500000 = .bw500k ∧
    chan_Lora_std_bandwidth 250000 = .bw250k ∧
    chan_Lora_std_bandwidth 125000 = .bw125k ∧
    (∀ bw : Nat, bw ≠ 500000 → bw ≠ 250000 → bw ≠ 125000 →
      chan_Lora_std_bandwidth bw = .undefinedBW) ∧
    chan_Lora_std_bandwidth 124999 = .undefinedBW ∧
    chan_Lora_std_spread_factor 7 = .sf7 ∧
    chan_Lora_std_spread_factor 8 = .sf8 ∧
    chan_Lora_std_spread_factor 9 = .sf9 ∧
    chan_Lora_std_spread_factor 10 = .sf10 ∧
    chan_Lora_std_spread_factor 11 = .sf11 ∧
    chan_Lora_std_spread_factor 12 = .sf12 ∧
    (∀ sf : Nat, sf < 7 ∨ 12 < sf →
      chan_Lora_std_spread_factor sf = .undefinedDR) ∧
    chan_Lora_std_spread_factor 13 = .undefinedDR := by
  refine ⟨by decide, by decide, by decide, ?_, by decide, by decide,
          by decide, by decide, by decide, by decide, by decide, ?_,
          by decide⟩
  · intro bw h1 h2 h3
    unfold chan_Lora_std_bandwidth
    split <;> simp_all
  · intro sf h
    unfold chan_Lora_std_spread_factor
    split <;> first | rfl | omega

/-- C6 witness: 124999 is not one of the three exact bandwidths and
maps to undefined; 13 is outside 7..12 and maps to undefined. -/
theorem chan_Lora_std_exact_match_witness :
    chan_Lora_std_bandwidth 124999 = .undefinedBW ∧
    chan_Lora_std_spread_factor 13 = .undefinedDR :=
  ⟨chan_Lora_std_exact_match.2.2.2.1 124999 (by decide) (by decide)
     (by decide),
   chan_Lora_std_exact_match.2.2.2.2.2.2.2.2.2.2.2.1 13 (by decide)⟩

/-- C7: for every slot whose `enable` field is absent or not a
boolean, each of the four slot parsers produces the zero-initialized
record with `enable = false` and reads no other field of the slot. -/
theorem enable_nonboolean_slot_disabled :
    ∀ slot : SlotDoc, isJsonBoolean slot.enable = false →
      parse_radio_slot slot = (zeroRxrf, []) ∧
      parse_multiSF_slot slot = (zeroRxif, []) ∧
      parse_Lora_std_slot slot = (zeroRxif, []) ∧
      parse_FSK_slot slot = (zeroRxif, []) := by
  intro slot h
  refine ⟨?_, ?_, ?_, ?_⟩ <;>
    simp [parse_radio_slot, parse_multiSF_slot, parse_Lora_std_slot,
          parse_FSK_slot, h, zeroRxrf, zeroRxif]

/-- C7 witness: a slot whose `enable` value is the number 1 (present
but not a boolean) parses to the zero records with nothing else
read, even though the other fields are present. -/
theorem enable_nonboolean_slot_disabled_witness :
    parse_radio_slot
      ⟨some (.jnumber 1), some (.jnumber 868100000), none, none,
       none, none, none⟩ = (zeroRxrf, []) ∧
    parse_multiSF_slot
      ⟨some (.jnumber 1), some (.jnumber 868100000), none, none,
       none, none, none⟩ = (zeroRxif, []) ∧
    parse_Lora_std_slot
      ⟨some (.jnumber 1), some (.jnumber 868100000), none, none,
       none, none, none⟩ = (zeroRxif, []) ∧
    parse_FSK_slot
      ⟨some (.jnumber 1), some (.jnumber 868100000), none, none,
       none, none, none⟩ = (zeroRxif, []) := by
  have h := enable_nonboolean_slot_disabled
    ⟨some (.jnumber 1), some (.jnumber 868100000), none, none,
     none, none, none⟩ (by decide)
  exact ⟨h.1, h.2.1, h.2.2.1, h.2.2.2⟩

/-- C4: configuration resolution order — a present debug document is
the only source consulted; otherwise global is applied first (if
present) followed by local (if present); with only a local document,
local alone is consulted; with none of the three, `setupconf` returns
`EXIT_FAILURE`. -/
theorem setupconf_resolution_order :
    ∀ files : ConfFiles,
      (files.debugPresent = true →
        ((setupconf files).1.map ParseCall.file =
          [debug_conf_fname, debug_conf_fname] ∧
         (setupconf files).2 = 0 ∧
         global_conf_fname ∉ (setupconf files).1.map ParseCall.file ∧
         local_conf_fname ∉ (setupconf files).1.map ParseCall.file)) ∧
      (files.debugPresent = false → files.globalPresent = true →
        files.localPresent = true →
        ((setupconf files).1.map ParseCall.file =
          [global_conf_fname, global_conf_fname,
           local_conf_fname, local_conf_fname] ∧
         (setupconf files).2 = 0)) ∧
      (files.debugPresent = false → files.globalPresent = true →
        files.localPresent = false →
        ((setupconf files).1.map ParseCall.file =
          [global_conf_fname, global_conf_fname] ∧
         (setupconf files).2 = 0)) ∧
      (files.debugPresent = false → files.globalPresent = false →
        files.localPresent = true →
        ((setupconf files).1.map ParseCall.file =
          [local_conf_fname, local_conf_fname] ∧
         (setupconf files).2 = 0)) ∧
      (files.debugPresent = false → files.globalPresent = false →
        files.localPresent = false →
        ((setupconf files).1 = [] ∧ (setupconf files).2 = 1)) := by
  rintro ⟨d, g, l⟩
  rcases d <;> rcases g <;> rcases l <;>
    simp [setupconf, ParseCall.file, global_conf_fname,
          local_conf_fname, debug_conf_fname]

/-- C4 witness: with all three documents present only the debug
document is consulted; with none, `setupconf` fails with
`EXIT_FAILURE`. -/
theorem setupconf_resolution_order_witness :
    ((setupconf ⟨true, true, true⟩).1.map ParseCall.file =
      [debug_conf_fname, debug_conf_fname] ∧
     global_conf_fname ∉ (setupconf ⟨true, true, true⟩).1.map
       ParseCall.file) ∧
    (setupconf ⟨false, false, false⟩).2 = 1 := by
  have h1 := (setupconf_resolution_order ⟨true, true, true⟩).1 rfl
  have h2 :=
    (setupconf_resolution_order ⟨false, false, false⟩).2.2.2.2 rfl rfl rfl
  exact ⟨⟨h1.1, h1.2.2.1⟩, h2.2⟩

/-- C3 counterexample: a successfully-opened document whose
`gateway_conf` object has no `gateway_ID` field does not resolve to a
zero MAC — line 289 passes the NULL result of
`json_object_dotget_string` straight to `sscanf`, which is undefined
behavior, so resolution does not complete with any MAC value. -/
theorem parse_gateway_absent_field_not_zero :
    parse_gateway_configuration 0
      { rootValid := true, confPresent := true, gateway_ID := none } =
      .nullStringUB ∧
    parse_gateway_configuration 0
      { rootValid := true, confPresent := true, gateway_ID := none } ≠
      .ok 0 := by
  exact ⟨rfl, by decide⟩

/-- C3 (amended): when the `gateway_ID` field is present as a string,
resolution parses it with `sscanf("%llx")` — an optionally signed
hexadecimal item converted into a 64-bit unsigned integer, a `-` sign
negating modulo 2^64 — and completes; a present-but-malformed string
(no hex digits to match) silently resolves to zero.  When the field
is absent or not a string, the NULL string is handed to `sscanf`
(undefined behavior), so completion is not guaranteed.  The concrete
conjuncts check a full 16-digit MAC string and the signed forms. -/
theorem parse_gateway_configuration_hex :
    (∀ (lgwm0 : Nat) (doc : GwDoc) (s : String),
      doc.rootValid = true → doc.confPresent = true →
      doc.gateway_ID = some (.jstring s) →
      parse_gateway_configuration lgwm0 doc =
        .ok ((scanHexU64 s).getD 0)) ∧
    (∀ (lgwm0 : Nat) (doc : GwDoc) (s : String),
      doc.rootValid = true → doc.confPresent = true →
      doc.gateway_ID = some (.jstring s) → scanHexU64 s = none →
      parse_gateway_configuration lgwm0 doc = .ok 0) ∧
    (∀ (lgwm0 : Nat) (doc : GwDoc),
      doc.rootValid = true → doc.confPresent = true →
      dotgetString doc.gateway_ID = none →
      parse_gateway_configuration lgwm0 doc = .nullStringUB) ∧
    scanHexU64 "AA555A0000000000" = some 0xAA555A0000000000 ∧
    scanHexU64 "+ff" = some 0xff ∧
    scanHexU64 "-5" = some (2 ^ 64 - 5) ∧
    scanHexU64 "not hex at all" = none := by
  refine ⟨?_, ?_, ?_, by decide, by decide, by decide, by decide⟩
  · intro lgwm0 doc s h1 h2 h3
    simp [parse_gateway_configuration, h1, h2, h3, dotgetString]
  · intro lgwm0 doc s h1 h2 h3 h4
    simp [parse_gateway_configuration, h1, h2, h3, h4, dotgetString]
  · intro lgwm0 doc h1 h2 h3
    simp [parse_gateway_configuration, h1, h2, h3]

/-- C3 witness: a document carrying the string "AA555A0000000000"
resolves to that 64-bit MAC, and one carrying a digit-free string
resolves to zero. -/
theorem parse_gateway_configuration_hex_witness :
    parse_gateway_configuration 0
      { rootValid := true, confPresent := true,
        gateway_ID := some (.jstring "AA555A0000000000") } =
      .ok 0xAA555A0000000000 ∧
    parse_gateway_configuration 0
      { rootValid := true, confPresent := true,
        gateway_ID := some (.jstring "not hex at all") } = .ok 0 := by
  constructor
  · have h := parse_gateway_configuration_hex.1 0
      { rootValid := true, confPresent := true,
        gateway_ID := some (.jstring "AA555A0000000000") }
      "AA555A0000000000" rfl rfl rfl
    rw [h]
    decide
  · exact parse_gateway_configuration_hex.2.1 0
      { rootValid := true, confPresent := true,
        gateway_ID := some (.jstring "not hex at all") }
      "not hex at all" rfl rfl rfl (by decide)

/-- Pointwise effect of the payload copy loop on the staging buffer. -/
theorem copyPayload_apply (size : Nat) :
    ∀ (buf : Nat → Nat) (payload : List Nat) (k : Nat),
      copyPayload buf payload size k =
        if k < size then payload.getD k 0 else buf k := by
  induction size with
  | zero => intro buf payload k; simp [copyPayload, copyWriteIndices]
  | succ n ih =>
    intro buf payload k
    unfold copyPayload copyWriteIndices
    rw [List.range_succ, List.foldl_append, List.foldl_cons, List.foldl_nil]
    show (if k = n then payload.getD n 0 else copyPayload buf payload n k) = _
    rcases eq_or_ne k n with h | h
    · subst h; simp
    · rw [if_neg h, ih]
      rcases Nat.lt_trichotomy k n with h2 | h2 | h2
      · rw [if_pos h2, if_pos (by omega)]
      · exact absurd h2 h
      · rw [if_neg (by omega), if_neg (by omega)]

/-- Reading back the copied prefix of the staging buffer yields the
payload. -/
theorem copyPayload_map (buf : Nat → Nat) (payload : List Nat) :
    (copyWriteIndices payload.length).map
      (copyPayload buf payload payload.length) = payload := by
  apply List.ext_getElem
  · simp [copyWriteIndices]
  · intro i h1 h2
    simp only [copyWriteIndices, List.getElem_map, List.getElem_range,
      copyPayload_apply]
    rw [if_pos h2]
    exact List.getD_eq_getElem payload 0 h2

/-- C10: the payload copy loop writes exactly the buffer indices
`0 .. sizeBytes-1`; whenever `sizeBytes ≤ 256` every written index is
within the 256-byte staging buffer; and the loop itself checks no
capacity — at `sizeBytes = 257` it writes index 256, which is outside
the buffer. -/
theorem copy_loop_bounds :
    (∀ size j : Nat, j ∈ copyWriteIndices size ↔ j < size) ∧
    (∀ size : Nat, size ≤ 256 →
      ∀ j ∈ copyWriteIndices size, j < 256) ∧
    (256 ∈ copyWriteIndices 257 ∧ ¬ 256 < 256) := by
  refine ⟨?_, ?_, by decide, by decide⟩
  · intro size j; simp [copyWriteIndices]
  · intro size hs j hj
    rw [copyWriteIndices, List.mem_range] at hj
    omega

/-- C10 witness: at the hardware's maximum frame size 256, index 255
is written and is in bounds. -/
theorem copy_loop_bounds_witness :
    (255 ∈ copyWriteIndices 256 ↔ 255 < 256) ∧ 255 < 256 :=
  ⟨copy_loop_bounds.1 256 255,
   copy_loop_bounds.2.1 256 (by decide) 255 (by decide)⟩

/-- C8: for every CRC-valid frame with a working socket, the loop
body opens a socket, connects to the fixed endpoint 127.0.0.1:1680,
writes exactly `size` raw payload bytes (no framing) when `size > 0`
and skips the write when `size = 0`, then closes the socket; the
corruption counter is reset to 0. -/
theorem valid_frame_forwarding :
    ∀ (st : LoopState) (fe : FrameEnv),
      fe.pkt.status = .crcOk → fe.sockOk = true → fe.connOk = true →
      fe.pkt.payload.length = fe.pkt.size →
      logPacket st fe =
        ([Event.socketOpen, Event.connectTo "127.0.0.1" 1680] ++
          (if 0 < fe.pkt.size then
            [Event.writeBytes fe.pkt.size fe.pkt.payload] else []) ++
          [Event.closeSock],
         { corrupt_pkt_count := 0,
           recvBuff :=
             copyPayload st.recvBuff fe.pkt.payload fe.pkt.size },
         false) := by
  intro st fe h hs hc hlen
  unfold logPacket
  rw [if_pos h, if_neg (by simp [hs]), if_neg (by simp [hc])]
  rw [← hlen, copyPayload_map]

/-- C8 witness: a valid 2-byte frame produces exactly
connect–write–close with the raw payload, and a valid 0-byte frame
produces connect–close with no write. -/
theorem valid_frame_forwarding_witness :
    logPacket initLoopState ⟨⟨.crcOk, 2, [5, 6]⟩, true, true⟩ =
      ([Event.socketOpen, Event.connectTo "127.0.0.1" 1680,
        Event.writeBytes 2 [5, 6], Event.closeSock],
       { corrupt_pkt_count := 0,
         recvBuff := copyPayload initLoopState.recvBuff [5, 6] 2 },
       false) ∧
    logPacket initLoopState ⟨⟨.crcOk, 0, []⟩, true, true⟩ =
      ([Event.socketOpen, Event.connectTo "127.0.0.1" 1680,
        Event.closeSock],
       { corrupt_pkt_count := 0,
         recvBuff := copyPayload initLoopState.recvBuff [] 0 },
       false) := by
  constructor
  · simpa using valid_frame_forwarding initLoopState
      ⟨⟨.crcOk, 2, [5, 6]⟩, true, true⟩ rfl rfl rfl rfl
  · simpa using valid_frame_forwarding initLoopState
      ⟨⟨.crcOk, 0, []⟩, true, true⟩ rfl rfl rfl rfl

/-- C9: with no shutdown flag set, a poll returning `LGW_HAL_ERROR`
makes `execute` return `EXIT_FAILURE` at once — the remaining script
is never consulted; a socket-creation or connect failure on a valid
frame makes the packet-loop body return, the rest of the batch is not
processed, and `execute` returns a failure ignoring the remaining
script. -/
theorem runtime_fatal_errors :
    ∀ (env : CycleEnv) (rest : List CycleEnv),
      env.flags.quit_sig = false → env.flags.exit_sig = false →
      ((env.poll = .halError →
        execute true (env :: rest) =
          ([Event.lgwStart, Event.lgwReceive], .failure)) ∧
       (∀ st fe, fe.pkt.status = .crcOk →
        (fe.sockOk = false ∨ fe.connOk = false) →
        (logPacket st fe).2.2 = true) ∧
       (∀ st fe frames, (logPacket st fe).2.2 = true →
        processPackets st (fe :: frames) =
          ((logPacket st fe).1, (logPacket st fe).2.1, true)) ∧
       (∀ frames, env.poll = .pkts frames →
        (processPackets initLoopState frames).2.2 = true →
        execute true (env :: rest) =
          (Event.lgwStart :: Event.lgwReceive ::
            ((if frames.length = 0 then [Event.sleep3ms] else []) ++
              (processPackets initLoopState frames).1),
           .failure))) := by
  intro env rest hq he
  refine ⟨?_, ?_, ?_, ?_⟩
  · intro hp
    simp [execute, executeLoop, hq, he, hp]
  · intro st fe hst hf
    unfold logPacket
    rw [if_pos hst]
    rcases hf with hf | hf
    · simp [hf]
    · rcases hs : fe.sockOk with _ | _ <;> simp [hf]
  · intro st fe frames hfail
    unfold processPackets
    simp [hfail]
  · intro frames hp hfail
    simp [execute, executeLoop, hq, he, hp, hfail]

/-- C9 witness: a poll failure on the first cycle ends the run with
only the start and receive calls in the trace; a valid frame whose
socket creation fails ends the run without the second frame of the
batch or the second cycle being processed. -/
theorem runtime_fatal_errors_witness :
    execute true
      [{ flags := flags0, poll := .halError },
       { flags := flags0, poll := .pkts [] }] =
      ([Event.lgwStart, Event.lgwReceive], .failure) ∧
    (logPacket initLoopState ⟨⟨.crcOk, 1, [7]⟩, false, true⟩).2.2 =
      true ∧
    execute true
      [{ flags := flags0,
         poll := .pkts [⟨⟨.crcOk, 1, [7]⟩, false, true⟩,
                        ⟨⟨.crcOk, 1, [8]⟩, true, true⟩] },
       { flags := flags0, poll := .pkts [] }] =
      (Event.lgwStart :: Event.lgwReceive ::
        (processPackets initLoopState
          [⟨⟨.crcOk, 1, [7]⟩, false, true⟩,
           ⟨⟨.crcOk, 1, [8]⟩, true, true⟩]).1,
       .failure) := by
  have h := runtime_fatal_errors
    { flags := flags0, poll := .halError }
    [{ flags := flags0, poll := .pkts [] }] rfl rfl
  have h2 := runtime_fatal_errors
    { flags := flags0,
      poll := .pkts [⟨⟨.crcOk, 1, [7]⟩, false, true⟩,
                     ⟨⟨.crcOk, 1, [8]⟩, true, true⟩] }
    [{ flags := flags0, poll := .pkts [] }] rfl rfl
  refine ⟨h.1 rfl, ?_, ?_⟩
  · exact h2.2.1 initLoopState ⟨⟨.crcOk, 1, [7]⟩, false, true⟩ rfl
      (Or.inl rfl)
  · have h3 := h2.2.2.2 _ rfl ?_
    · simpa using h3
    · rw [h2.2.2.1 initLoopState ⟨⟨.crcOk, 1, [7]⟩, false, true⟩ _
        (h2.2.1 initLoopState ⟨⟨.crcOk, 1, [7]⟩, false, true⟩ rfl
          (Or.inl rfl))]

/- ---------------------------------------------------------------- -/
/- Corruption counter and watchdog (lines 429-461).                 -/
/- ---------------------------------------------------------------- -/

/-- One status step of the consecutive-corruption counter: reset on a
CRC-valid frame (line 432), increment otherwise (line 457). -/
def corruptStep (c : Nat) (s : PktStatus) : Nat :=
  if s = .crcOk then 0 else c + 1

/-- The counter after a sequence of statuses. -/
def corruptCount (c : Nat) (sts : List PktStatus) : Nat :=
  sts.foldl corruptStep c

/-- Modelled from the claim's words: the number of consecutive
non-valid frames at the end of the sequence (since the last valid
frame, or since the start). -/
def trailingBad (sts : List PktStatus) : Nat :=
  (sts.reverse.takeWhile (fun s => !(s == PktStatus.crcOk))).length

/-- Expected number of watchdog emissions from initial counter `c`:
one for every prefix on which the counter lands exactly on 10. -/
def watchdogEmissions (c : Nat) (sts : List PktStatus) : Nat :=
  (List.range sts.length).countP
    (fun i => corruptCount c (sts.take (i + 1)) == 10)

/-- The counter is the trailing run of non-valid statuses, offset by
the initial value when no valid status occurs at all. -/
theorem corruptCount_eq_trailingBad (c : Nat) (l : List PktStatus) :
    corruptCount c l =
      (if PktStatus.crcOk ∈ l then 0 else c) + trailingBad l := by
  induction l using List.reverseRecOn with
  | nil => simp [corruptCount, trailingBad]
  | append_singleton l s ih =>
    rw [corruptCount, List.foldl_append, List.foldl_cons, List.foldl_nil]
    rw [show List.foldl corruptStep c l = corruptCount c l from rfl, ih]
    unfold trailingBad corruptStep
    rw [List.reverse_append]
    rcases eq_or_ne s PktStatus.crcOk with h | h
    · subst h
      simp
    · rw [if_neg h]
      have hmem : (PktStatus.crcOk ∈ l ++ [s]) ↔ PktStatus.crcOk ∈ l := by
        simp [Ne.symm h]
      simp only [hmem, List.reverse_singleton, List.singleton_append,
        List.takeWhile_cons,
        show (!(s == PktStatus.crcOk)) = true by simp [h], if_true,
        List.length_cons]
      split_ifs <;> omega

/-- Recurrence of `watchdogEmissions` along the status sequence. -/
theorem watchdogEmissions_cons (c : Nat) (s : PktStatus)
    (rest : List PktStatus) :
    watchdogEmissions c (s :: rest) =
      (if corruptStep c s = 10 then 1 else 0) +
        watchdogEmissions (corruptStep c s) rest := by
  unfold watchdogEmissions
  rw [List.length_cons, List.range_succ_eq_map, List.countP_cons,
    List.countP_map]
  have hp : ∀ i : Nat,
      ((fun i => corruptCount c ((s :: rest).take (i + 1)) == 10) ∘
        Nat.succ) i =
      (fun i => corruptCount (corruptStep c s) (rest.take (i + 1)) == 10)
        i := by
    intro i
    simp only [Function.comp]
    rw [List.take_succ_cons]
    rfl
  have hcount :=
    congrArg (fun q => List.countP q (List.range rest.length)) (funext hp)
  simp only at hcount
  rw [hcount]
  simp only [List.take_succ_cons, List.take_zero]
  simp only [show corruptCount c [s] = corruptStep c s from rfl,
    beq_iff_eq]
  split_ifs <;> omega

/-- No socket-creation or connect failure occurs on the valid frames
of a batch (the poll/forward environment behaves). -/
def noSockFailure (frames : List FrameEnv) : Prop :=
  ∀ fe ∈ frames, fe.pkt.status = .crcOk →
    fe.sockOk = true ∧ fe.connOk = true

instance (frames : List FrameEnv) : Decidable (noSockFailure frames) := by
  unfold noSockFailure
  infer_instance

/-- Analysis of one packet-loop body iteration: a CRC-valid frame with
a working socket resets the counter, fails nothing and emits no
watchdog diagnostic; a non-valid frame increments the counter by one
and emits the diagnostic exactly when the counter lands on 10. -/
theorem logPacket_counter (st : LoopState) (fe : FrameEnv) :
    (fe.pkt.status = .crcOk → fe.sockOk = true → fe.connOk = true →
      (logPacket st fe).2.2 = false ∧
      (logPacket st fe).2.1.corrupt_pkt_count = 0 ∧
      (logPacket st fe).1.count Event.watchdogDiag = 0) ∧
    (fe.pkt.status ≠ .crcOk →
      (logPacket st fe).2.2 = false ∧
      (logPacket st fe).2.1.corrupt_pkt_count =
        st.corrupt_pkt_count + 1 ∧
      (logPacket st fe).1.count Event.watchdogDiag =
        (if st.corrupt_pkt_count + 1 = 10 then 1 else 0)) := by
  constructor
  · intro h hs hc
    unfold logPacket
    rw [if_pos h, if_neg (by simp [hs]), if_neg (by simp [hc])]
    refine ⟨rfl, rfl, ?_⟩
    simp [List.count_append, List.count_cons]
    split_ifs <;> simp
  · intro h
    unfold logPacket
    rw [if_neg h]
    refine ⟨rfl, rfl, ?_⟩
    by_cases h10 : st.corrupt_pkt_count + 1 = 10 <;> simp [h10]

/-- The packet loop on a well-behaved batch never takes the early
return. -/
theorem processPackets_noFail :
    ∀ (frames : List FrameEnv) (st : LoopState),
      noSockFailure frames →
      (processPackets st frames).2.2 = false := by
  intro frames
  induction frames with
  | nil => intro st _; rfl
  | cons fe rest ih =>
    intro st hn
    unfold processPackets
    have hfe : (logPacket st fe).2.2 = false := by
      rcases hst : fe.pkt.status with _ | _ | _
      · have h := hn fe (by simp) hst
        exact ((logPacket_counter st fe).1 hst h.1 h.2).1
      · exact ((logPacket_counter st fe).2 (by simp [hst])).1
      · exact ((logPacket_counter st fe).2 (by simp [hst])).1
    simp only [hfe, Bool.false_eq_true, if_false]
    exact ih _ (fun fe2 h2 => hn fe2 (by simp [h2]))

/-- The counter after a well-behaved batch is the status fold. -/
theorem processPackets_counter :
    ∀ (frames : List FrameEnv) (st : LoopState),
      noSockFailure frames →
      (processPackets st frames).2.1.corrupt_pkt_count =
        corruptCount st.corrupt_pkt_count
          (frames.map (fun fe => fe.pkt.status)) := by
  intro frames
  induction frames with
  | nil => intro st _; simp [processPackets, corruptCount]
  | cons fe rest ih =>
    intro st hn
    have hrest : noSockFailure rest := fun fe2 h2 => hn fe2 (by simp [h2])
    unfold processPackets
    rcases hst : fe.pkt.status with _ | _ | _
    · have hok := hn fe (by simp) hst
      have h := (logPacket_counter st fe).1 hst hok.1 hok.2
      simp only [h.1, Bool.false_eq_true, if_false]
      rw [ih _ hrest, h.2.1]
      simp [corruptCount, List.foldl_cons, corruptStep, hst]
    · have h := (logPacket_counter st fe).2 (by simp [hst])
      simp only [h.1, Bool.false_eq_true, if_false]
      rw [ih _ hrest, h.2.1]
      simp [corruptCount, List.foldl_cons, corruptStep, hst]
    · have h := (logPacket_counter st fe).2 (by simp [hst])
      simp only [h.1, Bool.false_eq_true, if_false]
      rw [ih _ hrest, h.2.1]
      simp [corruptCount, List.foldl_cons, corruptStep, hst]

/-- The number of watchdog diagnostics in the trace of a well-behaved
batch is the number of prefixes on which the counter lands exactly on
10. -/
theorem processPackets_watchdog_count :
    ∀ (frames : List FrameEnv) (st : LoopState),
      noSockFailure frames →
      (processPackets st frames).1.count Event.watchdogDiag =
        watchdogEmissions st.corrupt_pkt_count
          (frames.map (fun fe => fe.pkt.status)) := by
  intro frames
  induction frames with
  | nil => intro st _; simp [processPackets, watchdogEmissions]
  | cons fe rest ih =>
    intro st hn
    have hrest : noSockFailure rest := fun fe2 h2 => hn fe2 (by simp [h2])
    unfold processPackets
    rw [List.map_cons, watchdogEmissions_cons]
    rcases hst : fe.pkt.status with _ | _ | _
    · have hok := hn fe (by simp) hst
      have h := (logPacket_counter st fe).1 hst hok.1 hok.2
      simp only [h.1, Bool.false_eq_true, if_false, List.count_append]
      rw [h.2.2, ih _ hrest, h.2.1]
      simp [corruptStep, hst]
    · have h := (logPacket_counter st fe).2 (by simp [hst])
      simp only [h.1, Bool.false_eq_true, if_false, List.count_append]
      rw [h.2.2, ih _ hrest, h.2.1]
      simp only [corruptStep, hst]
      split_ifs <;> simp_all
    · have h := (logPacket_counter st fe).2 (by simp [hst])
      simp only [h.1, Bool.false_eq_true, if_false, List.count_append]
      rw [h.2.2, ih _ hrest, h.2.1]
      simp only [corruptStep, hst]
      split_ifs <;> simp_all

/-- C1: per-frame, a CRC-valid frame resets the consecutive-corruption
counter to zero and a non-valid frame increments it by exactly one;
over any well-behaved frame sequence processed from the initial state,
the final counter equals the trailing run of non-valid statuses, and
the watchdog diagnostic is emitted exactly once per prefix whose
trailing non-valid run has length exactly 10 — so exactly once per
crossing, not again for the 11th and later consecutive non-valid
frames unless a valid frame resets the counter and it re-crosses. -/
theorem corruption_watchdog :
    (∀ (st : LoopState) (fe : FrameEnv), fe.pkt.status = .crcOk →
      (logPacket st fe).2.1.corrupt_pkt_count = 0) ∧
    (∀ (st : LoopState) (fe : FrameEnv), fe.pkt.status ≠ .crcOk →
      (logPacket st fe).2.1.corrupt_pkt_count =
        st.corrupt_pkt_count + 1 ∧
      (logPacket st fe).1.count Event.watchdogDiag =
        (if st.corrupt_pkt_count + 1 = 10 then 1 else 0)) ∧
    (∀ frames : List FrameEnv, noSockFailure frames →
      (processPackets initLoopState frames).2.1.corrupt_pkt_count =
        trailingBad (frames.map (fun fe => fe.pkt.status)) ∧
      (processPackets initLoopState frames).1.count Event.watchdogDiag =
        (List.range frames.length).countP
          (fun i =>
            trailingBad
              ((frames.map (fun fe => fe.pkt.status)).take (i + 1)) ==
              10)) := by
  have hzero : ∀ l : List PktStatus, corruptCount 0 l = trailingBad l := by
    intro l
    rw [corruptCount_eq_trailingBad]
    split_ifs <;> omega
  refine ⟨?_, ?_, ?_⟩
  · intro st fe h
    unfold logPacket
    rw [if_pos h]
    rcases hs : fe.sockOk with _ | _ <;> rcases hc : fe.connOk with _ | _ <;>
      simp
  · intro st fe h
    exact ⟨((logPacket_counter st fe).2 h).2.1,
           ((logPacket_counter st fe).2 h).2.2⟩
  · intro frames hn
    constructor
    · rw [processPackets_counter frames initLoopState hn]
      exact hzero _
    · rw [processPackets_watchdog_count frames initLoopState hn]
      unfold watchdogEmissions
      rw [show initLoopState.corrupt_pkt_count = 0 from rfl]
      have hlen : (frames.map (fun fe => fe.pkt.status)).length =
          frames.length := by simp
      rw [hlen]
      apply List.countP_congr
      intro i _
      rw [hzero]

/-- C1 witness (spec scenario B): ten consecutive non-valid frames
followed by one valid frame produce exactly one watchdog diagnostic
and leave the counter at 0. -/
theorem corruption_watchdog_witness :
    (processPackets initLoopState
        (List.replicate 10 ⟨⟨.crcBad, 0, []⟩, true, true⟩ ++
          [⟨⟨.crcOk, 0, []⟩, true, true⟩])).1.count
        Event.watchdogDiag = 1 ∧
    (processPackets initLoopState
        (List.replicate 10 ⟨⟨.crcBad, 0, []⟩, true, true⟩ ++
          [⟨⟨.crcOk, 0, []⟩, true, true⟩])).2.1.corrupt_pkt_count =
      0 := by
  have h := corruption_watchdog.2.2
    (List.replicate 10 ⟨⟨.crcBad, 0, []⟩, true, true⟩ ++
      [⟨⟨.crcOk, 0, []⟩, true, true⟩]) (by decide)
  refine ⟨?_, ?_⟩
  · rw [h.2]; decide
  · rw [h.1]; decide

/-- The packet loop never emits hardware-stop or log-close events. -/
theorem logPacket_no_shutdown (st : LoopState) (fe : FrameEnv) :
    Event.lgwStop ∉ (logPacket st fe).1 ∧
    Event.closeLogFile ∉ (logPacket st fe).1 := by
  unfold logPacket
  split_ifs <;> simp

/-- Neither does a whole batch. -/
theorem processPackets_no_shutdown :
    ∀ (frames : List FrameEnv) (st : LoopState),
      Event.lgwStop ∉ (processPackets st frames).1 ∧
      Event.closeLogFile ∉ (processPackets st frames).1 := by
  intro frames
  induction frames with
  | nil => intro st; simp [processPackets]
  | cons fe rest ih =>
    intro st
    unfold processPackets
    by_cases hf : (logPacket st fe).2.2 = true
    · simp only [hf, if_true]
      exact logPacket_no_shutdown st fe
    · simp only [hf, Bool.false_eq_true, if_false, List.mem_append]
      constructor
      · rintro (h | h)
        · exact (logPacket_no_shutdown st fe).1 h
        · exact (ih _).1 h
      · rintro (h | h)
        · exact (logPacket_no_shutdown st fe).2 h
        · exact (ih _).2 h

/-- A run that ends with the abrupt flag only (`quit_sig` set,
`exit_sig` clear) performs no hardware stop and no log-file close. -/
theorem executeLoop_abrupt :
    ∀ (script : List CycleEnv) (st : LoopState),
      (executeLoop st script).2 = .success false →
      Event.lgwStop ∉ (executeLoop st script).1 ∧
      Event.closeLogFile ∉ (executeLoop st script).1 := by
  intro script
  induction script with
  | nil => intro st h; simp [executeLoop] at h
  | cons env rest ih =>
    intro st h
    unfold executeLoop at h ⊢
    by_cases hflag : env.flags.quit_sig = true ∨ env.flags.exit_sig = true
    · rw [if_pos hflag] at h ⊢
      have hexit : env.flags.exit_sig = false := by
        rcases hb : env.flags.exit_sig with _ | _
        · rfl
        · simp [hb] at h
      simp [hexit]
    · rw [if_neg hflag] at h ⊢
      rcases hp : env.poll with _ | frames <;> rw [hp] at h
      · simp at h
      · by_cases hfail : (processPackets st frames).2.2 = true
        · simp [hfail] at h
        · simp only [hfail, Bool.false_eq_true, if_false] at h ⊢
          have hrec := ih (processPackets st frames).2.1 h
          have hpp := processPackets_no_shutdown frames st
          constructor <;>
            · intro hmem
              rcases List.mem_cons.mp hmem with h2 | h2
              · cases h2
              · rcases List.mem_append.mp h2 with h3 | h3
                · rcases List.mem_append.mp h3 with h4 | h4
                  · split_ifs at h4 <;> simp at h4
                  · first
                      | exact hpp.1 h4
                      | exact hpp.2 h4
                · first
                    | exact hrec.1 h3
                    | exact hrec.2 h3

/-- A run that ends with the graceful flag stops the hardware and
closes the log file as its final two actions. -/
theorem executeLoop_graceful :
    ∀ (script : List CycleEnv) (st : LoopState),
      (executeLoop st script).2 = .success true →
      ∃ pre, (executeLoop st script).1 =
        pre ++ [Event.lgwStop, Event.closeLogFile] := by
  intro script
  induction script with
  | nil => intro st h; simp [executeLoop] at h
  | cons env rest ih =>
    intro st h
    unfold executeLoop at h ⊢
    by_cases hflag : env.flags.quit_sig = true ∨ env.flags.exit_sig = true
    · rw [if_pos hflag] at h ⊢
      have hexit : env.flags.exit_sig = true := by
        rcases hb : env.flags.exit_sig with _ | _
        · simp [hb] at h
        · rfl
      refine ⟨[], ?_⟩
      simp [hexit]
    · rw [if_neg hflag] at h ⊢
      rcases hp : env.poll with _ | frames <;> rw [hp] at h
      · simp at h
      · by_cases hfail : (processPackets st frames).2.2 = true
        · simp [hfail] at h
        · simp only [hfail, Bool.false_eq_true, if_false] at h ⊢
          obtain ⟨pre, hpre⟩ := ih (processPackets st frames).2.1 h
          refine ⟨Event.lgwReceive ::
            ((if frames.length = 0 then [Event.sleep3ms] else []) ++
              (processPackets st frames).1 ++ pre), ?_⟩
          simp [hpre]

/-- C2: SIGQUIT sets only the abrupt flag and SIGINT/SIGTERM set only
the graceful flag; a run of `execute` that terminates on the abrupt
flag alone performs no Hardware Boundary `stop()` call and never
closes the log file, while a run that terminates on the graceful flag
calls `stop()` and closes the log file as its final two actions before
returning. -/
theorem shutdown_paths :
    sig_handler flags0 .sigquit = { exit_sig := false, quit_sig := true } ∧
    sig_handler flags0 .sigint = { exit_sig := true, quit_sig := false } ∧
    sig_handler flags0 .sigterm = { exit_sig := true, quit_sig := false } ∧
    ∀ script : List CycleEnv,
      ((execute true script).2 = .success false →
        Event.lgwStop ∉ (execute true script).1 ∧
        Event.closeLogFile ∉ (execute true script).1) ∧
      ((execute true script).2 = .success true →
        ∃ pre, (execute true script).1 =
          pre ++ [Event.lgwStop, Event.closeLogFile]) := by
  refine ⟨rfl, rfl, rfl, ?_⟩
  intro script
  constructor
  · intro h
    have h2 : (executeLoop initLoopState script).2 = .success false := h
    have h3 := executeLoop_abrupt script initLoopState h2
    simp only [execute, if_true, List.mem_cons]
    constructor
    · rintro (h4 | h4)
      · cases h4
      · exact h3.1 h4
    · rintro (h4 | h4)
      · cases h4
      · exact h3.2 h4
  · intro h
    have h2 : (executeLoop initLoopState script).2 = .success true := h
    obtain ⟨pre, hpre⟩ := executeLoop_graceful script initLoopState h2
    refine ⟨Event.lgwStart :: pre, ?_⟩
    simp [execute, hpre]

/-- C2 witness: a cycle observing only the abrupt flag yields a trace
without stop or log close; one observing the graceful flag ends with
stop followed by log close. -/
theorem shutdown_paths_witness :
    (Event.lgwStop ∉ (execute true [⟨⟨false, true⟩, .pkts []⟩]).1 ∧
     Event.closeLogFile ∉
       (execute true [⟨⟨false, true⟩, .pkts []⟩]).1) ∧
    (execute true [⟨⟨true, false⟩, .pkts []⟩]).1 =
      [Event.lgwStart] ++ [Event.lgwStop, Event.closeLogFile] := by
  refine ⟨(shutdown_paths.2.2.2 [⟨⟨false, true⟩, .pkts []⟩]).1
    (by decide), ?_⟩
  obtain ⟨pre, hpre⟩ :=
    (shutdown_paths.2.2.2 [⟨⟨true, false⟩, .pkts []⟩]).2 (by decide)
  have hp : pre = [Event.lgwStart] :=
    (List.append_inj'
      (hpre.symm.trans
        (show (execute true [⟨⟨true, false⟩, .pkts []⟩]).1 =
          [Event.lgwStart] ++ [Event.lgwStop, Event.closeLogFile] from
          rfl)) rfl).1
  rw [hpre, hp]
